import Mathlib

/-!
Shallow embedding of `src/moderation_service.py` (a FastAPI image-moderation
gateway in front of the Clarifai classifier) and verification of the spec's
claims about it.

Modelling choices:
* Confidence scores and thresholds are modelled as rationals (`ℚ`); the
  Python code only compares, maxes and copies them.
* The module-level configuration (`UNSAFE_THRESHOLD`, `BLOCKING_LABEL_THRESHOLD`)
  is read from the environment at startup, so the decision logic is
  parameterised over the two thresholds.
* A Clarifai concept object is duck-typed in the source (`getattr` probing of
  `name`/`id` and `value`/`score`); it is modelled as a record of optional
  fields, where a score field may hold a non-numeric value (on which
  `float(...)` raises and the code coerces to `0.0`).
* The request/response cycle of the endpoint is modelled as a pure function
  from the request's observable inputs (model handle readiness, declared
  content type, the result of reading the body, the classifier's response) to
  either an HTTP error or a 200-body.
-/

namespace ImageModeration

/-- `BLOCKING_LABELS = ['suggestive', 'gore', 'drugs', 'hate', 'unsafe']`. -/
def BLOCKING_LABELS : List String := ["suggestive", "gore", "drugs", "hate", "unsafe"]

/-- `MAX_FILE_SIZE = 5 * 1024 * 1024`. -/
def MAX_FILE_SIZE : Nat := 5 * 1024 * 1024

/-- `ALLOWED_MIMES = {"image/jpeg", "image/jpg", "image/png", "image/webp", "image/gif"}`. -/
def ALLOWED_MIMES : List String :=
  ["image/jpeg", "image/jpg", "image/png", "image/webp", "image/gif"]

/-- Python `str` whitespace for `strip()` (ASCII range: space, tab, newline,
carriage return, vertical tab, form feed). -/
def isPySpace (c : Char) : Bool :=
  c = ' ' || c = '\t' || c = '\n' || c = '\r' || c = '\x0b' || c = '\x0c'

/-- `str.lower()` on one character (ASCII case, which covers every label the
service compares against). -/
def pyLowerChar (c : Char) : Char :=
  if 'A' ≤ c ∧ c ≤ 'Z' then Char.ofNat (c.toNat + 32) else c

/-- `str.strip()`: drop whitespace from both ends. -/
def pyStrip (s : String) : String :=
  ⟨((s.data.dropWhile (isPySpace ·)).reverse.dropWhile (isPySpace ·)).reverse⟩

/-- `str.lower()`. -/
def pyLower (s : String) : String := ⟨s.data.map pyLowerChar⟩

/-- `_normalize_label_name`: empty/absent input maps to `""`, otherwise
`name.strip().lower()`. -/
def normalizeLabelName (name : String) : String :=
  if name = "" then "" else pyLower (pyStrip name)

/-- A value found in a duck-typed score field: either a number or something
`float(...)` rejects. -/
inductive RawVal where
  | num (q : ℚ)
  | nonNumeric
deriving DecidableEq, Repr

/-- A duck-typed Clarifai concept object: each probed attribute may be absent. -/
structure RawConcept where
  name : Option String
  id : Option String
  value : Option RawVal
  score : Option RawVal
deriving DecidableEq, Repr

/-- `float(score)` with the enclosing `try/except` that coerces failures to `0.0`. -/
def coerceFloat : RawVal → ℚ
  | .num q => q
  | .nonNumeric => 0

/-- `name = getattr(concept, "name", "") or getattr(concept, "id", "")`. -/
def extractName (c : RawConcept) : String :=
  let n := c.name.getD ""
  if n = "" then c.id.getD "" else n

/-- `score = getattr(concept, "value", None)`; if `None`, then
`getattr(concept, "score", 0.0)`; then `float(score)` coerced to `0.0` on failure. -/
def extractScore (c : RawConcept) : ℚ :=
  match c.value with
  | some v => coerceFloat v
  | none =>
    match c.score with
    | some v => coerceFloat v
    | none => 0

/-- One entry of the handler's accumulated label list:
`{"name": normalized, "score": score}`. -/
structure LabeledScore where
  name : String
  score : ℚ
deriving DecidableEq, Repr

/-- The `for concept in concepts` loop of `check_image_moderation`, carrying the
accumulators `unsafe_labels`, `max_score`, `is_unsafe` exactly as the source
updates them. -/
def modLoop (bt : ℚ) : List RawConcept → List LabeledScore → ℚ → Bool →
    List LabeledScore × ℚ × Bool
  | [], labels, maxScore, isUnsafe => (labels, maxScore, isUnsafe)
  | c :: rest, labels, maxScore, isUnsafe =>
    let normalized := normalizeLabelName (extractName c)
    let s := extractScore c
    let labels' := labels ++ [⟨normalized, s⟩]
    let maxScore' := if s > maxScore then s else maxScore
    let isUnsafe' := if normalized ∈ BLOCKING_LABELS ∧ s ≥ bt then true else isUnsafe
    modLoop bt rest labels' maxScore' isUnsafe'

/-- The verdict assembled by the decision section of `check_image_moderation`.
The list field is called `unsafe_labels` in the source; the spec calls it
`flaggedLabels`, which is the name used here. -/
structure Verdict where
  isUnsafe : Bool
  maxScore : ℚ
  flaggedLabels : List LabeledScore
deriving DecidableEq, Repr

/-- The decision logic of `check_image_moderation` (steps 4–5 of the handler):
the loop with initial accumulators `[], 0.0, False`, followed by
`if max_score >= UNSAFE_THRESHOLD: is_unsafe = True`.  `ut` is
`UNSAFE_THRESHOLD` and `bt` is `BLOCKING_LABEL_THRESHOLD` (both read from the
environment at startup, hence parameters here). -/
def decide (concepts : List RawConcept) (ut bt : ℚ) : Verdict :=
  let r := modLoop bt concepts [] 0 false
  { isUnsafe := if r.2.1 ≥ ut then true else r.2.2
    maxScore := r.2.1
    flaggedLabels := r.1 }

/-- The HTTP error outcomes the handler can raise (each `raise HTTPException`
site of `check_image_moderation`). -/
inductive HttpError where
  | serviceUnavailable                                      -- 503, line 55
  | unsupportedMediaType                                    -- 415, line 64
  | readFailed                                              -- 400, line 74
  | emptyFile                                               -- 400, line 83
  | tooLarge                                                -- 413, line 89
  | upstreamError                                           -- 502, line 103
  | internalError                                           -- 500, line 109
  | forbidden (maxScore : ℚ) (labels : List LabeledScore)   -- 403, line 164
deriving DecidableEq, Repr

/-- A 200 body returned by the handler.  Both return sites carry
`"is_unsafe": False`: the early returns of the response-shape section carry a
`message`, the final return carries the score and label list. -/
inductive OkBody where
  | noVerdict (msg : String)
  | safeVerdict (maxScore : ℚ) (labels : List LabeledScore)
deriving DecidableEq, Repr

/-- The `is_unsafe` JSON field of a 200 body (`False` at both return sites). -/
def OkBody.isUnsafeField : OkBody → Bool
  | .noVerdict _ => false
  | .safeVerdict _ _ => false

/-- Steps 0–1 of `check_image_moderation`: model-handle check, content-type
allow-list, body read, emptiness and size checks, in source order.
`contentType` is the request's declared content type (`None` modelling a
missing header, turned into `""` by `image.content_type or ""`); `readResult`
is the outcome of `await image.read()` (`none` = the read raised). -/
def validateUpload (modelReady : Bool) (contentType : Option String)
    (readResult : Option (List Nat)) : Except HttpError (List Nat) :=
  if !modelReady then .error .serviceUnavailable
  else
    let ct := contentType.getD ""
    if ct ∉ ALLOWED_MIMES then .error .unsupportedMediaType
    else
      match readResult with
      | none => .error .readFailed
      | some bytes =>
        if bytes.length = 0 then .error .emptyFile
        else if bytes.length > MAX_FILE_SIZE then .error .tooLarge
        else .ok bytes

/-- Outcome of `clarifai_model.predict_by_bytes`, as the handler distinguishes
them: a `ClarifaiException`, any other exception, or a response object.  A
response's `outputs` attribute may be absent/`None` (modelled `none`); each
output's `.data.concepts` access may itself fail (the inner `none`). -/
inductive ClassifyResult where
  | clarifaiError
  | otherError
  | response (outputs : Option (List (Option (List RawConcept))))

/-- Steps 3–5 of `check_image_moderation`: the response-shape checks
(`if not outputs or len(outputs) == 0`, then `outputs[0].data.concepts` under
`try/except`), the decision logic, and the final return/raise. -/
def processResponse (outputs : Option (List (Option (List RawConcept))))
    (ut bt : ℚ) : Except HttpError OkBody :=
  match outputs with
  | none => .ok (.noVerdict "Clarifai response was invalid.")
  | some [] => .ok (.noVerdict "Clarifai response was invalid.")
  | some (o :: _) =>
    match o with
    | none => .ok (.noVerdict "Clarifai response parsing failed.")
    | some concepts =>
      let v := decide concepts ut bt
      if v.isUnsafe then .error (.forbidden v.maxScore v.flaggedLabels)
      else .ok (.safeVerdict v.maxScore v.flaggedLabels)

set_option linter.unusedVariables false in
/-- The whole request/response cycle of `check_image_moderation`.
`thresholdQuery` models a `threshold` query parameter on the request: the
handler's signature declares only the `image` form field, and FastAPI silently
ignores undeclared query parameters, so the value never reaches the handler
body — hence the parameter is unused below, exactly as in the source. -/
def check_image_moderation (modelReady : Bool) (contentType : Option String)
    (readResult : Option (List Nat)) (classify : List Nat → ClassifyResult)
    (thresholdQuery : Option ℚ) (ut bt : ℚ) : Except HttpError OkBody :=
  match validateUpload modelReady contentType readResult with
  | .error e => .error e
  | .ok bytes =>
    match classify bytes with
    | .clarifaiError => .error .upstreamError
    | .otherError => .error .internalError
    | .response outputs => processResponse outputs ut bt

/-- Modelled from the spec (§4.4, step 4): the decision step's effective
threshold, "`override` if provided and in [0,1], else
`thresholds.globalThreshold`".  The repository's handler declares no such
override parameter; this definition renders the spec's words so that claim C3
can be compared against the code. -/
def effectiveThreshold (override : Option ℚ) (globalT : ℚ) : ℚ :=
  match override with
  | some o => if 0 ≤ o ∧ o ≤ 1 then o else globalT
  | none => globalT

/-! ### Helper lemmas about the decision loop -/

/-- The source's running-maximum update is `max`. -/
theorem if_gt_eq_max (m s : ℚ) : (if s > m then s else m) = max m s := by
  rcases le_or_lt s m with h | h
  · rw [if_neg (not_lt.mpr h), max_eq_left h]
  · rw [if_pos h, max_eq_right h.le]

/-- The loop appends one `{"name", "score"}` entry per concept, in order. -/
theorem modLoop_labels (bt : ℚ) (l : List RawConcept) (labels : List LabeledScore)
    (m : ℚ) (u : Bool) :
    (modLoop bt l labels m u).1 =
      labels ++ l.map (fun c => ⟨normalizeLabelName (extractName c), extractScore c⟩) := by
  induction l generalizing labels m u with
  | nil => simp [modLoop]
  | cons c rest ih => simp [modLoop, ih]

/-- The loop's running maximum is a left fold of `max` over the coerced scores. -/
theorem modLoop_max (bt : ℚ) (l : List RawConcept) (labels : List LabeledScore)
    (m : ℚ) (u : Bool) :
    (modLoop bt l labels m u).2.1 = (l.map extractScore).foldl max m := by
  induction l generalizing labels m u with
  | nil => simp [modLoop]
  | cons c rest ih => simp [modLoop, ih, if_gt_eq_max]

/-- A left `max` fold never drops below its initial value. -/
theorem le_foldl_max (l : List ℚ) (m : ℚ) : m ≤ l.foldl max m := by
  induction l generalizing m with
  | nil => exact le_rfl
  | cons x xs ih => exact le_trans (le_max_left m x) (ih (max m x))

/-- A left `max` fold dominates every list element. -/
theorem mem_le_foldl_max {l : List ℚ} {a : ℚ} (h : a ∈ l) (m : ℚ) :
    a ≤ l.foldl max m := by
  induction l generalizing m with
  | nil => cases h
  | cons x xs ih =>
    rcases List.mem_cons.mp h with h' | h'
    · subst h'
      exact le_trans (le_max_right m a) (le_foldl_max xs (max m a))
    · exact ih h' (max m x)

/-- A left `max` fold is bounded by any bound on the seed and the elements. -/
theorem foldl_max_le {l : List ℚ} {m B : ℚ} (hm : m ≤ B) (h : ∀ a ∈ l, a ≤ B) :
    l.foldl max m ≤ B := by
  induction l generalizing m with
  | nil => exact hm
  | cons x xs ih =>
    exact ih (max_le hm (h x (List.mem_cons_self x xs)))
      (fun a ha => h a (List.mem_cons_of_mem x ha))

/-- A left `max` fold is the seed or is attained by a list element. -/
theorem foldl_max_eq_or_mem (l : List ℚ) (m : ℚ) :
    l.foldl max m = m ∨ l.foldl max m ∈ l := by
  induction l generalizing m with
  | nil => exact Or.inl rfl
  | cons x xs ih =>
    rcases ih (max m x) with h | h
    · rcases max_choice m x with h' | h'
      · exact Or.inl (by rw [List.foldl_cons, h, h'])
      · exact Or.inr (by rw [List.foldl_cons, h, h']; exact List.mem_cons_self x xs)
    · exact Or.inr (List.mem_cons_of_mem x h)

/-- Once the loop's `is_unsafe` accumulator is `True` it stays `True`. -/
theorem modLoop_true (bt : ℚ) (l : List RawConcept) (labels : List LabeledScore)
    (m : ℚ) : (modLoop bt l labels m true).2.2 = true := by
  induction l generalizing labels m with
  | nil => rfl
  | cons c rest ih => simp [modLoop, ih]

/-- A member of the list whose normalized label is blocking and whose score
meets the blocking threshold forces the loop's `is_unsafe` accumulator. -/
theorem modLoop_unsafe_of_mem (bt : ℚ) {c : RawConcept} {l : List RawConcept}
    (hc : c ∈ l) (hb : normalizeLabelName (extractName c) ∈ BLOCKING_LABELS)
    (hs : bt ≤ extractScore c) (labels : List LabeledScore) (m : ℚ) (u : Bool) :
    (modLoop bt l labels m u).2.2 = true := by
  induction l generalizing labels m u with
  | nil => cases hc
  | cons x xs ih =>
    rcases List.mem_cons.mp hc with h | h
    · subst h
      simp only [modLoop]
      have hcond : (if normalizeLabelName (extractName c) ∈ BLOCKING_LABELS ∧
          extractScore c ≥ bt then true else u) = true := if_pos ⟨hb, hs⟩
      rw [hcond]
      exact modLoop_true bt xs _ _
    · exact ih h _ _ _

/-- Splitting the loop over a list append. -/
theorem modLoop_append (bt : ℚ) (l1 l2 : List RawConcept)
    (labels : List LabeledScore) (m : ℚ) (u : Bool) :
    modLoop bt (l1 ++ l2) labels m u =
      modLoop bt l2 (modLoop bt l1 labels m u).1 (modLoop bt l1 labels m u).2.1
        (modLoop bt l1 labels m u).2.2 := by
  induction l1 generalizing labels m u with
  | nil => simp [modLoop]
  | cons x xs ih =>
    simp only [List.cons_append, modLoop]
    exact ih _ _ _

/-- The verdict's `max_score` is the `max` fold of the coerced scores. -/
theorem decide_maxScore (concepts : List RawConcept) (ut bt : ℚ) :
    (decide concepts ut bt).maxScore = (concepts.map extractScore).foldl max 0 := by
  simp [decide, modLoop_max]

/-- The verdict's label list, in closed form. -/
theorem decide_flaggedLabels (concepts : List RawConcept) (ut bt : ℚ) :
    (decide concepts ut bt).flaggedLabels =
      concepts.map (fun c => ⟨normalizeLabelName (extractName c), extractScore c⟩) := by
  simp [decide, modLoop_labels]

/-- The verdict's `is_unsafe` flag, characterised: either the running maximum
reached `UNSAFE_THRESHOLD`, or the loop saw a blocking-label hit. -/
theorem decide_isUnsafe_iff (concepts : List RawConcept) (ut bt : ℚ) :
    (decide concepts ut bt).isUnsafe = true ↔
      ut ≤ (modLoop bt concepts [] 0 false).2.1 ∨
        (modLoop bt concepts [] 0 false).2.2 = true := by
  simp only [decide, ge_iff_le]
  split
  · next h => simp [h]
  · next h => simp [h]

/-! ### Sample concepts used to instantiate the claims -/

/-- A classifier concept reported with a `name` and a numeric `value`. -/
def conceptNamed (s : String) (q : ℚ) : RawConcept :=
  ⟨some s, none, some (.num q), none⟩

/-! ### Claims -/

/-- C1 (counterexample): on `[{"safe", 0.99}, {"gore", 0.5}]` with global
threshold 0.8 and blocking threshold 0.75, the code computes
`max_score = 0.99` and `is_unsafe = True`: the "safe" concept is *not*
excluded from the unsafe-maximum, refuting the claimed
`maxScore = 0.5`, `isUnsafe = false`. -/
theorem C1_counterexample :
    (decide [conceptNamed "safe" (Rat.divInt 99 100), conceptNamed "gore" (Rat.divInt 1 2)]
        (Rat.divInt 4 5) (Rat.divInt 3 4)).maxScore = Rat.divInt 99 100 ∧
    (decide [conceptNamed "safe" (Rat.divInt 99 100), conceptNamed "gore" (Rat.divInt 1 2)]
        (Rat.divInt 4 5) (Rat.divInt 3 4)).isUnsafe = true ∧
    ¬ ((decide [conceptNamed "safe" (Rat.divInt 99 100), conceptNamed "gore" (Rat.divInt 1 2)]
        (Rat.divInt 4 5) (Rat.divInt 3 4)).maxScore = Rat.divInt 1 2 ∧
       (decide [conceptNamed "safe" (Rat.divInt 99 100), conceptNamed "gore" (Rat.divInt 1 2)]
        (Rat.divInt 4 5) (Rat.divInt 3 4)).isUnsafe = false) := by
  decide

/-- C1 (amended): the code has no safe-label exclusion: every concept's
coerced score — in particular one labelled "safe" — participates in and is
dominated by the verdict's `max_score`; on the claim's list the code yields
`max_score = 0.99` and `is_unsafe = True` with global threshold 0.8. -/
theorem C1_no_safe_exclusion :
    (∀ (concepts : List RawConcept) (ut bt : ℚ) (c : RawConcept), c ∈ concepts →
      extractScore c ≤ (decide concepts ut bt).maxScore) ∧
    (decide [conceptNamed "safe" (Rat.divInt 99 100), conceptNamed "gore" (Rat.divInt 1 2)]
        (Rat.divInt 4 5) (Rat.divInt 3 4)).maxScore = Rat.divInt 99 100 ∧
    (decide [conceptNamed "safe" (Rat.divInt 99 100), conceptNamed "gore" (Rat.divInt 1 2)]
        (Rat.divInt 4 5) (Rat.divInt 3 4)).isUnsafe = true := by
  refine ⟨?_, by decide, by decide⟩
  intro concepts ut bt c hc
  rw [decide_maxScore]
  exact mem_le_foldl_max (List.mem_map_of_mem extractScore hc) 0

/-- C1 witness: the "no exclusion" part of `C1_no_safe_exclusion` applied to a
concrete "safe"-labelled concept. -/
theorem C1_no_safe_exclusion_witness :
    conceptNamed "safe" (Rat.divInt 99 100) ∈ [conceptNamed "safe" (Rat.divInt 99 100)] ∧
    extractScore (conceptNamed "safe" (Rat.divInt 99 100)) ≤
      (decide [conceptNamed "safe" (Rat.divInt 99 100)] (Rat.divInt 4 5)
        (Rat.divInt 3 4)).maxScore :=
  ⟨by decide,
   C1_no_safe_exclusion.1 [conceptNamed "safe" (Rat.divInt 99 100)] (Rat.divInt 4 5)
     (Rat.divInt 3 4) (conceptNamed "safe" (Rat.divInt 99 100)) (by decide)⟩

/-- C2 (counterexample): a concept whose score 0.1 is strictly below both the
global threshold 0.8 and the blocking threshold 0.75 still appears in the
verdict's label list, refuting "concepts below both thresholds do not appear
in it". -/
theorem C2_counterexample :
    (decide [conceptNamed "x" (Rat.divInt 1 10)] (Rat.divInt 4 5)
        (Rat.divInt 3 4)).flaggedLabels = [⟨"x", Rat.divInt 1 10⟩] ∧
    Rat.divInt 1 10 < Rat.divInt 4 5 ∧ Rat.divInt 1 10 < Rat.divInt 3 4 := by
  decide

/-- C2 (amended): the verdict's label list (`unsafe_labels` in the source)
contains *every* concept — normalized label with coerced score, in insertion
order — regardless of any threshold. -/
theorem C2_labels_all_concepts :
    ∀ (concepts : List RawConcept) (ut bt : ℚ),
      (decide concepts ut bt).flaggedLabels =
        concepts.map (fun c => ⟨normalizeLabelName (extractName c), extractScore c⟩) :=
  decide_flaggedLabels

/-- C3 (counterexample): a request carrying `threshold = 0.1` (which lies in
[0,1]) on a concept of score 0.5 with configured global threshold 0.8 is
answered `200` with `is_unsafe = False` — but a decision that used the
spec's effective threshold (0.1) would have been unsafe.  The handler declares
no `threshold` parameter, so the override is never used. -/
theorem C3_counterexample :
    check_image_moderation true (some "image/png") (some [0])
        (fun _ => .response (some [some [conceptNamed "x" (Rat.divInt 1 2)]]))
        (some (Rat.divInt 1 10)) (Rat.divInt 4 5) (Rat.divInt 3 4)
      = .ok (.safeVerdict (Rat.divInt 1 2) [⟨"x", Rat.divInt 1 2⟩]) ∧
    ((0:ℚ) ≤ Rat.divInt 1 10 ∧ Rat.divInt 1 10 ≤ 1) ∧
    (decide [conceptNamed "x" (Rat.divInt 1 2)]
        (effectiveThreshold (some (Rat.divInt 1 10)) (Rat.divInt 4 5))
        (Rat.divInt 3 4)).isUnsafe = true := by
  refine ⟨rfl, by decide, by decide⟩

/-- C3 (amended): the handler accepts requests carrying a `threshold` query
parameter (FastAPI ignores undeclared query parameters) but its value never
influences the outcome: the decision always uses the configured global
threshold. -/
theorem C3_threshold_ignored :
    ∀ (modelReady : Bool) (ct : Option String) (rr : Option (List Nat))
      (classify : List Nat → ClassifyResult) (tq1 tq2 : Option ℚ) (ut bt : ℚ),
      check_image_moderation modelReady ct rr classify tq1 ut bt =
        check_image_moderation modelReady ct rr classify tq2 ut bt :=
  fun _ _ _ _ _ _ _ _ => rfl

/-- C4 (confirmed): a score exactly equal to the applicable threshold counts
as unsafe — a concept whose coerced score equals `UNSAFE_THRESHOLD`, or a
blocking-label concept whose coerced score equals `BLOCKING_LABEL_THRESHOLD`,
forces `is_unsafe = True` (both comparisons in the source are `>=`). -/
theorem C4_threshold_tie_flags (concepts : List RawConcept) (ut bt : ℚ)
    (h : (∃ c ∈ concepts, extractScore c = ut) ∨
         (∃ c ∈ concepts, normalizeLabelName (extractName c) ∈ BLOCKING_LABELS ∧
            extractScore c = bt)) :
    (decide concepts ut bt).isUnsafe = true := by
  rw [decide_isUnsafe_iff]
  rcases h with ⟨c, hc, hs⟩ | ⟨c, hc, hb, hs⟩
  · left
    rw [modLoop_max]
    exact le_of_eq hs.symm |>.trans (mem_le_foldl_max (List.mem_map_of_mem extractScore hc) 0)
  · right
    exact modLoop_unsafe_of_mem bt hc hb (le_of_eq hs.symm) [] 0 false

/-- C4 witness: a concept at exactly the global threshold 0.8, and a
blocking-label ("gore") concept at exactly the blocking threshold 0.75. -/
theorem C4_threshold_tie_flags_witness :
    (∃ c ∈ [conceptNamed "x" (Rat.divInt 4 5)], extractScore c = Rat.divInt 4 5) ∧
    (decide [conceptNamed "x" (Rat.divInt 4 5)] (Rat.divInt 4 5)
      (Rat.divInt 3 4)).isUnsafe = true ∧
    (∃ c ∈ [conceptNamed "gore" (Rat.divInt 3 4)],
      normalizeLabelName (extractName c) ∈ BLOCKING_LABELS ∧
        extractScore c = Rat.divInt 3 4) ∧
    (decide [conceptNamed "gore" (Rat.divInt 3 4)] (Rat.divInt 4 5)
      (Rat.divInt 3 4)).isUnsafe = true :=
  ⟨by decide,
   C4_threshold_tie_flags [conceptNamed "x" (Rat.divInt 4 5)] (Rat.divInt 4 5)
     (Rat.divInt 3 4) (Or.inl (by decide)),
   by decide,
   C4_threshold_tie_flags [conceptNamed "gore" (Rat.divInt 3 4)] (Rat.divInt 4 5)
     (Rat.divInt 3 4) (Or.inr (by decide))⟩

/-- C5 (confirmed): the decision is a total function (it is a Lean `def`), and
when every coerced input score lies in [0,1] — the spec's invariant on
`Concept` — the verdict's `max_score` lies in [0,1] and, on a non-empty list,
is dominated by some input concept's score (hence by the maximum input
score). -/
theorem C5_maxScore_bounds (concepts : List RawConcept) (ut bt : ℚ)
    (h : ∀ c ∈ concepts, 0 ≤ extractScore c ∧ extractScore c ≤ 1) :
    0 ≤ (decide concepts ut bt).maxScore ∧
    (decide concepts ut bt).maxScore ≤ 1 ∧
    (concepts ≠ [] →
      ∃ c ∈ concepts, (decide concepts ut bt).maxScore ≤ extractScore c) := by
  rw [decide_maxScore]
  refine ⟨le_foldl_max _ 0, foldl_max_le zero_le_one ?_, ?_⟩
  · intro a ha
    rcases List.mem_map.mp ha with ⟨c, hc, rfl⟩
    exact (h c hc).2
  · intro hne
    rcases foldl_max_eq_or_mem (concepts.map extractScore) 0 with h0 | hmem
    · rw [h0]
      cases concepts with
      | nil => exact absurd rfl hne
      | cons c cs =>
        exact ⟨c, List.mem_cons_self c cs, (h c (List.mem_cons_self c cs)).1⟩
    · rcases List.mem_map.mp hmem with ⟨c, hc, he⟩
      exact ⟨c, hc, le_of_eq he.symm⟩

/-- C5 witness: the bounds at a concrete two-concept list. -/
theorem C5_maxScore_bounds_witness :
    (∀ c ∈ [conceptNamed "gore" (Rat.divInt 1 2), conceptNamed "safe" (Rat.divInt 1 4)],
      0 ≤ extractScore c ∧ extractScore c ≤ 1) ∧
    (0 ≤ (decide [conceptNamed "gore" (Rat.divInt 1 2), conceptNamed "safe" (Rat.divInt 1 4)]
        (Rat.divInt 4 5) (Rat.divInt 3 4)).maxScore ∧
     (decide [conceptNamed "gore" (Rat.divInt 1 2), conceptNamed "safe" (Rat.divInt 1 4)]
        (Rat.divInt 4 5) (Rat.divInt 3 4)).maxScore ≤ 1 ∧
     ([conceptNamed "gore" (Rat.divInt 1 2), conceptNamed "safe" (Rat.divInt 1 4)] ≠
        ([] : List RawConcept) →
      ∃ c ∈ [conceptNamed "gore" (Rat.divInt 1 2), conceptNamed "safe" (Rat.divInt 1 4)],
        (decide [conceptNamed "gore" (Rat.divInt 1 2), conceptNamed "safe" (Rat.divInt 1 4)]
          (Rat.divInt 4 5) (Rat.divInt 3 4)).maxScore ≤ extractScore c)) :=
  ⟨by decide,
   C5_maxScore_bounds
     [conceptNamed "gore" (Rat.divInt 1 2), conceptNamed "safe" (Rat.divInt 1 4)]
     (Rat.divInt 4 5) (Rat.divInt 3 4) (by decide)⟩

/-- C6 (counterexample): with global threshold 0 — a value the spec's
`ThresholdConfig` invariant (both thresholds ∈ [0,1]) permits — the empty
concept list is flagged unsafe (`0 >= 0`), refuting "the safe verdict
unconditionally". -/
theorem C6_counterexample :
    (decide [] 0 (Rat.divInt 3 4)).isUnsafe = true ∧ (0:ℚ) ≤ 0 ∧ (0:ℚ) ≤ 1 := by
  decide

/-- C6 (amended): on the empty concept list the verdict always has
`max_score = 0` and an empty label list, and `is_unsafe = False` whenever the
global threshold is positive (with threshold 0 the `>=` comparison flags it). -/
theorem C6_empty_decide (ut bt : ℚ) :
    (decide [] ut bt).maxScore = 0 ∧
    (decide [] ut bt).flaggedLabels = [] ∧
    (0 < ut → (decide [] ut bt).isUnsafe = false) := by
  refine ⟨rfl, rfl, ?_⟩
  intro h
  exact if_neg (not_le.mpr h)

/-- C6 witness: the default global threshold 0.8 is positive, so the empty
list is judged safe. -/
theorem C6_empty_decide_witness :
    (0:ℚ) < Rat.divInt 4 5 ∧
    (decide [] (Rat.divInt 4 5) (Rat.divInt 3 4)).isUnsafe = false :=
  ⟨by decide, (C6_empty_decide (Rat.divInt 4 5) (Rat.divInt 3 4)).2.2 (by decide)⟩

/-- C7 (confirmed): the request-failure checks run in source order with the
first failure winning: not-ready (503, regardless of every later input —
in particular regardless of the body read), then content type (415), then
read failure (400), then empty body (400), then size over 5 MiB (413). -/
theorem C7_validation_order (ct : Option String) (rr : Option (List Nat))
    (classify : List Nat → ClassifyResult) (tq : Option ℚ) (ut bt : ℚ) :
    check_image_moderation false ct rr classify tq ut bt =
        .error .serviceUnavailable ∧
    (ct.getD "" ∉ ALLOWED_MIMES →
      check_image_moderation true ct rr classify tq ut bt =
        .error .unsupportedMediaType) ∧
    (ct.getD "" ∈ ALLOWED_MIMES → rr = none →
      check_image_moderation true ct rr classify tq ut bt = .error .readFailed) ∧
    (∀ bytes, ct.getD "" ∈ ALLOWED_MIMES → rr = some bytes → bytes.length = 0 →
      check_image_moderation true ct rr classify tq ut bt = .error .emptyFile) ∧
    (∀ bytes, ct.getD "" ∈ ALLOWED_MIMES → rr = some bytes → bytes.length ≠ 0 →
      bytes.length > MAX_FILE_SIZE →
      check_image_moderation true ct rr classify tq ut bt = .error .tooLarge) := by
  refine ⟨rfl, ?_, ?_, ?_, ?_⟩
  · intro hct
    simp [check_image_moderation, validateUpload, hct]
  · intro hct hrr
    subst hrr
    simp [check_image_moderation, validateUpload, hct]
  · intro bytes hct hrr hlen
    subst hrr
    simp [check_image_moderation, validateUpload, hct, hlen]
  · intro bytes hct hrr hlen hbig
    subst hrr
    simp [check_image_moderation, validateUpload, hct, hlen, hbig]

/-- C7 witness: each validation failure exhibited on a concrete request; the
oversized body is `MAX_FILE_SIZE + 1` zero bytes. -/
theorem C7_validation_order_witness :
    check_image_moderation false (some "image/png") (some [0])
        (fun _ => .otherError) none 0 0 = .error .serviceUnavailable ∧
    ((some "text/plain" : Option String).getD "" ∉ ALLOWED_MIMES ∧
      check_image_moderation true (some "text/plain") (some [0])
        (fun _ => .otherError) none 0 0 = .error .unsupportedMediaType) ∧
    check_image_moderation true (some "image/png") none
        (fun _ => .otherError) none 0 0 = .error .readFailed ∧
    check_image_moderation true (some "image/png") (some [])
        (fun _ => .otherError) none 0 0 = .error .emptyFile ∧
    ((List.replicate (MAX_FILE_SIZE + 1) 0).length > MAX_FILE_SIZE ∧
      check_image_moderation true (some "image/png")
        (some (List.replicate (MAX_FILE_SIZE + 1) 0))
        (fun _ => .otherError) none 0 0 = .error .tooLarge) :=
  ⟨(C7_validation_order (some "image/png") (some [0]) (fun _ => .otherError) none 0 0).1,
   ⟨by decide,
    (C7_validation_order (some "text/plain") (some [0]) (fun _ => .otherError) none 0 0).2.1
      (by decide)⟩,
   (C7_validation_order (some "image/png") none (fun _ => .otherError) none 0 0).2.2.1
     (by decide) rfl,
   (C7_validation_order (some "image/png") (some []) (fun _ => .otherError) none 0 0).2.2.2.1
     [] (by decide) rfl rfl,
   ⟨by rw [List.length_replicate]; decide,
    (C7_validation_order (some "image/png") (some (List.replicate (MAX_FILE_SIZE + 1) 0))
        (fun _ => .otherError) none 0 0).2.2.2.2
      (List.replicate (MAX_FILE_SIZE + 1) 0) (by decide) rfl
      (by rw [List.length_replicate]; decide) (by rw [List.length_replicate]; decide)⟩⟩

/-- C8 (confirmed): when the classifier call succeeds but the response has no
outputs (absent or empty), or the first output's concepts cannot be
extracted, the handler returns a 200 body with an explanatory message — and
every 200 body carries `is_unsafe = False` — instead of raising an error. -/
theorem C8_degraded_safe (ut bt : ℚ) :
    processResponse none ut bt = .ok (.noVerdict "Clarifai response was invalid.") ∧
    processResponse (some []) ut bt =
      .ok (.noVerdict "Clarifai response was invalid.") ∧
    (∀ rest, processResponse (some (none :: rest)) ut bt =
      .ok (.noVerdict "Clarifai response parsing failed.")) ∧
    (∀ msg, (OkBody.noVerdict msg).isUnsafeField = false) :=
  ⟨rfl, rfl, fun _ => rfl, fun _ => rfl⟩

/-- C9 (confirmed): labels are read from `name` with fallback to `id`, scores
from `value` with fallback to `score`, absent or non-numeric scores coerce to
0; and the concept `{"Suggestive ", 0.76}` is flagged through the
blocking-label threshold 0.75 after normalization, although 0.76 < 0.8. -/
theorem C9_tolerant_extraction :
    (∀ (c : RawConcept) (s : String), c.name = some s → s ≠ "" → extractName c = s) ∧
    (∀ c : RawConcept, c.name = none ∨ c.name = some "" →
      extractName c = c.id.getD "") ∧
    (∀ (c : RawConcept) (q : ℚ), c.value = some (.num q) → extractScore c = q) ∧
    (∀ (c : RawConcept) (q : ℚ), c.value = none → c.score = some (.num q) →
      extractScore c = q) ∧
    (∀ c : RawConcept, c.value = some .nonNumeric → extractScore c = 0) ∧
    (∀ c : RawConcept, c.value = none →
      (c.score = none ∨ c.score = some .nonNumeric) → extractScore c = 0) ∧
    (decide [conceptNamed "Suggestive " (Rat.divInt 76 100)]
        (Rat.divInt 4 5) (Rat.divInt 3 4)).isUnsafe = true ∧
    Rat.divInt 76 100 < Rat.divInt 4 5 ∧ Rat.divInt 3 4 ≤ Rat.divInt 76 100 := by
  refine ⟨?_, ?_, ?_, ?_, ?_, ?_, by decide, by decide, by decide⟩
  · intro c s h1 h2
    simp [extractName, h1, h2]
  · intro c h
    rcases h with h | h <;> simp [extractName, h]
  · intro c q h
    simp [extractScore, h, coerceFloat]
  · intro c q h1 h2
    simp [extractScore, h1, h2, coerceFloat]
  · intro c h
    simp [extractScore, h, coerceFloat]
  · intro c h1 h2
    rcases h2 with h2 | h2 <;> simp [extractScore, h1, h2, coerceFloat]

/-- C9 witness: the field-tolerance clauses of `C9_tolerant_extraction`
applied to concrete duck-typed concepts. -/
theorem C9_tolerant_extraction_witness :
    extractName ⟨some "gore", none, none, none⟩ = "gore" ∧
    extractName ⟨none, some "drugs", none, none⟩ =
      (some "drugs" : Option String).getD "" ∧
    extractScore ⟨some "gore", none, some (.num (Rat.divInt 1 2)), none⟩ =
      Rat.divInt 1 2 ∧
    extractScore ⟨some "gore", none, none, some (.num (Rat.divInt 1 4))⟩ =
      Rat.divInt 1 4 ∧
    extractScore ⟨some "gore", none, some .nonNumeric, none⟩ = 0 ∧
    extractScore ⟨some "gore", none, none, none⟩ = 0 :=
  ⟨C9_tolerant_extraction.1 _ "gore" rfl (by decide),
   C9_tolerant_extraction.2.1 _ (Or.inl rfl),
   C9_tolerant_extraction.2.2.1 _ (Rat.divInt 1 2) rfl,
   C9_tolerant_extraction.2.2.2.1 _ (Rat.divInt 1 4) rfl rfl,
   C9_tolerant_extraction.2.2.2.2.1 _ rfl,
   C9_tolerant_extraction.2.2.2.2.2.1 _ rfl (Or.inl rfl)⟩

/-- C10 (confirmed): appending a concept never decreases `max_score` and never
turns an unsafe verdict safe. -/
theorem C10_monotone (l : List RawConcept) (c : RawConcept) (ut bt : ℚ) :
    (decide l ut bt).maxScore ≤ (decide (l ++ [c]) ut bt).maxScore ∧
    ((decide l ut bt).isUnsafe = true → (decide (l ++ [c]) ut bt).isUnsafe = true) := by
  constructor
  · rw [decide_maxScore, decide_maxScore, List.map_append, List.foldl_append]
    exact le_foldl_max _ _
  · intro h
    rw [decide_isUnsafe_iff] at h ⊢
    rcases h with h | h
    · left
      refine h.trans ?_
      rw [modLoop_max, modLoop_max, List.map_append, List.foldl_append]
      exact le_foldl_max _ _
    · right
      rw [modLoop_append, h]
      exact modLoop_true bt [c] _ _

/-- C10 witness: an unsafe singleton stays unsafe after appending a benign
concept, and its `max_score` does not decrease. -/
theorem C10_monotone_witness :
    (decide [conceptNamed "gore" (Rat.divInt 9 10)] (Rat.divInt 4 5)
      (Rat.divInt 3 4)).isUnsafe = true ∧
    (decide [conceptNamed "gore" (Rat.divInt 9 10)] (Rat.divInt 4 5)
        (Rat.divInt 3 4)).maxScore ≤
      (decide ([conceptNamed "gore" (Rat.divInt 9 10)] ++ [conceptNamed "x" (Rat.divInt 1 10)])
        (Rat.divInt 4 5) (Rat.divInt 3 4)).maxScore ∧
    (decide ([conceptNamed "gore" (Rat.divInt 9 10)] ++ [conceptNamed "x" (Rat.divInt 1 10)])
      (Rat.divInt 4 5) (Rat.divInt 3 4)).isUnsafe = true :=
  ⟨by decide,
   (C10_monotone [conceptNamed "gore" (Rat.divInt 9 10)] (conceptNamed "x" (Rat.divInt 1 10))
     (Rat.divInt 4 5) (Rat.divInt 3 4)).1,
   (C10_monotone [conceptNamed "gore" (Rat.divInt 9 10)] (conceptNamed "x" (Rat.divInt 1 10))
     (Rat.divInt 4 5) (Rat.divInt 3 4)).2 (by decide)⟩

end ImageModeration
